import Mathlib

/-!
Verification of the crawler core of `lab_5_scrapper/scrapper.py`.

The development shallowly embeds the two parts of the source that the
properties concern:

* `Config._validate_config_content` — validation of the seven raw
  configuration fields.  Raw Python values are modelled by `PyVal`
  (Python `bool` is a subtype of `int`, which matters for the
  `isinstance` checks), and the sequence of `if ...: raise E` statements
  becomes `validate_config_content : ConfigDTO → Except ConfigError Unit`.
* `Crawler._extract_url` / `Crawler.find_articles` — URL discovery.  A
  fetched listing page is modelled by the list of `href` attributes of
  its `news-teaser__link` elements, the network by an oracle
  `String → FetchResult`, and the two unbounded `while` loops of
  `find_articles` by fuel-indexed recursion whose out-of-fuel outcome is
  the explicit `CrawlResult.fuelOut` (so "for every fuel the result is
  `fuelOut`" states divergence of the source loop).
-/

deriving instance DecidableEq for Except

/-! ## Python value model for configuration validation -/

/-- A raw Python value as found in the loaded JSON configuration.
`pyBool` is kept separate from `pyInt` because Python `bool` is a
subclass of `int`: `isinstance(True, int)` is true, which the source
exploits (and compensates for) in its checks. -/
inductive PyVal where
  | pyInt (n : Int)
  | pyBool (b : Bool)
  | pyStr (s : String)
  | pyList (xs : List PyVal)
  | pyDict (kvs : List (PyVal × PyVal))
  | pyNone

/-- `isinstance(v, int)` — true for ints and for bools (bool is a
subclass of int in Python). -/
def isInstInt : PyVal → Bool
  | PyVal.pyInt _ => true
  | PyVal.pyBool _ => true
  | _ => false

/-- `isinstance(v, bool)`. -/
def isInstBool : PyVal → Bool
  | PyVal.pyBool _ => true
  | _ => false

/-- `isinstance(v, str)`. -/
def isInstStr : PyVal → Bool
  | PyVal.pyStr _ => true
  | _ => false

/-- `isinstance(v, list)`. -/
def isInstList : PyVal → Bool
  | PyVal.pyList _ => true
  | _ => false

/-- `isinstance(v, dict)`. -/
def isInstDict : PyVal → Bool
  | PyVal.pyDict _ => true
  | _ => false

/-- The integer value of a Python int-like value, used where the source
compares a value numerically.  `True` counts as 1 and `False` as 0,
exactly as in Python; the function is only consulted after an
`isinstance(..., int)` guard, so the catch-all 0 is never relied on. -/
def pyIntVal : PyVal → Int
  | PyVal.pyInt n => n
  | PyVal.pyBool b => if b then 1 else 0
  | _ => 0

/-- `p` is a prefix of `s`, on the character lists. -/
def str_starts_with (s p : String) : Bool :=
  List.isPrefixOf p.data s.data

/-- `re.match('https?://(www.)?', url)` viewed as a Boolean: since the
group `(www.)?` is optional and the pattern is only anchored at the
start, a string matches iff it starts with `http://` or with
`https://`. -/
def re_match_seed (s : String) : Bool :=
  str_starts_with s "http://" || str_starts_with s "https://"

/-- One entry of `seed_urls` passes the regex test, as a Boolean.  This
is a deliberately collapsed view: in Python, `re.match` on a non-string
raises `TypeError` rather than failing the check; that error path is
modelled faithfully by `re_match_entry`/`seed_urls_check`/
`validate_config_content_exc` below, and `seed_entry_ok` is only relied
on for inputs (all-string seed lists) and hypotheses
(`seed_urls_ok = true`) on which the two models provably agree. -/
def seed_entry_ok : PyVal → Bool
  | PyVal.pyStr s => re_match_seed s
  | _ => false

/-- `isinstance(config.seed_urls, list) and all(re.match(...) for url in
config.seed_urls)` — the condition guarding `IncorrectSeedURLError`.
Note that `all` over an empty list is `True`. -/
def seed_urls_ok : PyVal → Bool
  | PyVal.pyList xs => xs.all seed_entry_ok
  | _ => false

/-- `isinstance(total, int) and total > 0` and not
`isinstance(total, bool)` — the condition guarding
`IncorrectNumberOfArticlesError`. -/
def total_articles_type_ok (v : PyVal) : Bool :=
  (isInstInt v && pyIntVal v > 0) && !isInstBool v

/-- `1 < total < 150` — the condition guarding
`NumberOfArticlesOutOfRangeError`.  Both bounds are strict in the
source. -/
def total_articles_range_ok (v : PyVal) : Bool :=
  1 < pyIntVal v && pyIntVal v < 150

/-- `isinstance(headers, dict)` with all keys and values strings. -/
def headers_ok : PyVal → Bool
  | PyVal.pyDict kvs => kvs.all (fun kv => isInstStr kv.1 && isInstStr kv.2)
  | _ => false

/-- `isinstance(timeout, int) and 0 <= timeout <= 60`.  There is no
boolean exclusion here, unlike the `total_articles` check. -/
def timeout_ok (v : PyVal) : Bool :=
  isInstInt v && (0 ≤ pyIntVal v && pyIntVal v ≤ 60)

/-- The raw seven-field configuration record, as handed to
`_validate_config_content` (the `ConfigDTO` of the source). -/
structure ConfigDTO where
  seed_urls : PyVal
  total_articles : PyVal
  headers : PyVal
  encoding : PyVal
  timeout : PyVal
  should_verify_certificate : PyVal
  headless_mode : PyVal

/-- The seven exception classes raised by `_validate_config_content`. -/
inductive ConfigError where
  | incorrectSeedURL
  | incorrectNumberOfArticles
  | numberOfArticlesOutOfRange
  | incorrectHeaders
  | incorrectEncoding
  | incorrectTimeout
  | incorrectVerify
deriving DecidableEq

/-- `Config._validate_config_content`: the seven checks run in source
order; the first failing check raises its exception (modelled as
`Except.error`), and a configuration passing all checks raises nothing
(`Except.ok ()`). -/
def validate_config_content (c : ConfigDTO) : Except ConfigError Unit :=
  if !seed_urls_ok c.seed_urls then Except.error ConfigError.incorrectSeedURL
  else if !total_articles_type_ok c.total_articles then
    Except.error ConfigError.incorrectNumberOfArticles
  else if !total_articles_range_ok c.total_articles then
    Except.error ConfigError.numberOfArticlesOutOfRange
  else if !headers_ok c.headers then Except.error ConfigError.incorrectHeaders
  else if !isInstStr c.encoding then Except.error ConfigError.incorrectEncoding
  else if !timeout_ok c.timeout then Except.error ConfigError.incorrectTimeout
  else if !(isInstBool c.should_verify_certificate && isInstBool c.headless_mode) then
    Except.error ConfigError.incorrectVerify
  else Except.ok ()

/-- `re.match('https?://(www.)?', v)` truthiness for one seed entry,
with the failure mode made explicit: on a string it returns whether the
pattern matched; on any non-string Python raises `TypeError`
(`Except.error ()`), which nothing in `_validate_config_content`
catches. -/
def re_match_entry : PyVal → Except Unit Bool
  | PyVal.pyStr s => Except.ok (re_match_seed s)
  | _ => Except.error ()

/-- `all(re.match(...) for url in config.seed_urls)`: entries are
evaluated left to right; the first falsy match result stops the scan
with `False`, and a `TypeError` raised while producing the next element
propagates out of `all`. -/
def all_entries : List PyVal → Except Unit Bool
  | [] => Except.ok true
  | v :: rest =>
      match re_match_entry v with
      | Except.error e => Except.error e
      | Except.ok b => if b then all_entries rest else Except.ok false

/-- `isinstance(config.seed_urls, list) and all(...)` with the
`TypeError` path kept: `and` short-circuits, so a non-list never reaches
`all` and yields a plain `False`. -/
def seed_urls_check : PyVal → Except Unit Bool
  | PyVal.pyList xs => all_entries xs
  | _ => Except.ok false

/-- `_validate_config_content` with the uncaught `TypeError` from
`re.match` made explicit: `Except.error none` is a `TypeError` escaping
the seed check (the source raises it out of the method — it is not an
`IncorrectSeedURLError`); `Except.error (some e)` raises the validation
exception `e`; `Except.ok ()` returns normally.  The remaining six
checks use only `isinstance` tests and comparisons guarded by them, so
no other `TypeError` can arise. -/
def validate_config_content_exc (c : ConfigDTO) :
    Except (Option ConfigError) Unit :=
  match seed_urls_check c.seed_urls with
  | Except.error _ => Except.error none
  | Except.ok b =>
      if !b then Except.error (some ConfigError.incorrectSeedURL)
      else if !total_articles_type_ok c.total_articles then
        Except.error (some ConfigError.incorrectNumberOfArticles)
      else if !total_articles_range_ok c.total_articles then
        Except.error (some ConfigError.numberOfArticlesOutOfRange)
      else if !headers_ok c.headers then
        Except.error (some ConfigError.incorrectHeaders)
      else if !isInstStr c.encoding then
        Except.error (some ConfigError.incorrectEncoding)
      else if !timeout_ok c.timeout then
        Except.error (some ConfigError.incorrectTimeout)
      else if !(isInstBool c.should_verify_certificate &&
          isInstBool c.headless_mode) then
        Except.error (some ConfigError.incorrectVerify)
      else Except.ok ()

/-- A seed entry that is a string matching the `re.match` pattern
(i.e. starting with `http://` or `https://`). -/
def MatchingStr (w : PyVal) : Prop :=
  ∃ s, w = PyVal.pyStr s ∧ re_match_seed s = true

/-- A seed entry that is not a string at all — the shape on which
`re.match` raises `TypeError`. -/
def NonStr (w : PyVal) : Prop := ∀ s, w ≠ PyVal.pyStr s

/-! ## Crawler model -/

/-- `Crawler.url_pattern`, fixed in `Crawler.__init__`. -/
def url_pattern : String := "https://baikal24.ru"

/-- The loop body of `_extract_url`:
`url = ''; for link in links: url = pattern + href;
if url and url not in self.urls: break; return url`.
`acc` is the current value of the Python variable `url` (initially the
empty string); Python string truthiness is non-emptiness. -/
def extract_loop (pattern : String) (urls : List String) :
    List String → String → String
  | [], acc => acc
  | href :: rest, _ =>
      let url := pattern ++ href
      if url ≠ "" ∧ url ∉ urls then url else extract_loop pattern urls rest url

/-- `Crawler._extract_url`, with the page abstracted to the list of
`href` attributes of its `news-teaser__link` elements (in document
order) and the crawler state `self.urls` passed explicitly. -/
def extract_url (pattern : String) (urls : List String)
    (links : List String) : String :=
  extract_loop pattern urls links ""

/-- The outcome of `make_request(url, config)`: either a response with
its `.ok` flag and the parsed page, or an exception raised by
`requests.get` (DNS failure, timeout, connection reset, TLS failure —
the source installs no handler for these).  The pre-request politeness
`sleep` has no effect on the values computed and is not modelled. -/
inductive FetchResult where
  | resp (ok : Bool) (links : List String)
  | exn

/-- The observable outcome of `Crawler.find_articles` in the fuel-indexed
model: the function returned (`out` with the final `self.urls`), an
exception from `make_request` propagated out of it (`raised`), or the
given fuel was exhausted before either happened (`fuelOut`; divergence
of the source loop is "`fuelOut` for every fuel"). -/
inductive CrawlResult where
  | out (urls : List String)
  | raised
  | fuelOut
deriving DecidableEq

/-- The inner loop of `find_articles`:
`new_url = self._extract_url(soup); while new_url:
self.urls.append(new_url); new_url = self._extract_url(soup)`.
Each iteration consumes one unit of fuel; `none` means the fuel ran out
with the loop still running. -/
def inner_loop (pattern : String) (links : List String) :
    Nat → List String → Option (List String)
  | 0, _ => none
  | fuel + 1, urls =>
      let newUrl := extract_url pattern urls links
      if newUrl = "" then some urls
      else inner_loop pattern links fuel (urls ++ [newUrl])

/-- `k` executed iterations of the same inner-loop body (append the
extracted URL while it is non-empty), used to observe the crawler state
partway through a run of the loop. -/
def inner_iterate (pattern : String) (links : List String) :
    Nat → List String → List String
  | 0, urls => urls
  | k + 1, urls =>
      let newUrl := extract_url pattern urls links
      if newUrl = "" then urls
      else inner_iterate pattern links k (urls ++ [newUrl])

/-- One round of the `for seed_url in seed_urls` loop inside
`find_articles`: fetch each seed in order; an exception from
`make_request` propagates (`Sum.inl raised`); a response with
`not response.ok` is skipped with `continue`; an `ok` response runs the
inner extraction loop on its page.  `Sum.inr` carries the updated
`self.urls` when the round completes normally. -/
def crawl_round (pattern : String) (fetch : String → FetchResult)
    (innerFuel : Nat) : List String → List String →
    Sum CrawlResult (List String)
  | [], urls => Sum.inr urls
  | seed :: rest, urls =>
      match fetch seed with
      | FetchResult.exn => Sum.inl CrawlResult.raised
      | FetchResult.resp ok links =>
          if ok then
            match inner_loop pattern links innerFuel urls with
            | none => Sum.inl CrawlResult.fuelOut
            | some urls2 => crawl_round pattern fetch innerFuel rest urls2
          else crawl_round pattern fetch innerFuel rest urls

/-- `Crawler.find_articles`:
`while len(self.urls) < self.config.get_num_articles(): for seed_url in
seed_urls: ...`.  `target` is `get_num_articles()`, `seeds` is
`get_search_urls()`, `urls` is `self.urls` (initially `[]`).  The outer
`while` condition is re-checked once per completed round; each round
consumes one unit of outer fuel, and the inner loop is given `innerFuel`
units each time it starts. -/
def find_articles (pattern : String) (fetch : String → FetchResult)
    (seeds : List String) (target : Nat) (innerFuel : Nat) :
    Nat → List String → CrawlResult
  | 0, _ => CrawlResult.fuelOut
  | fuel + 1, urls =>
      if urls.length < target then
        match crawl_round pattern fetch innerFuel seeds urls with
        | Sum.inl abnormal => abnormal
        | Sum.inr urls2 =>
            find_articles pattern fetch seeds target innerFuel fuel urls2
      else CrawlResult.out urls

/-! ## Concrete inputs used by the individual properties -/

/-- A configuration whose `seed_urls` is the empty list and whose other
six fields are unquestionably valid. -/
def cfg_empty_seeds : ConfigDTO :=
  ⟨PyVal.pyList [], PyVal.pyInt 5, PyVal.pyDict [], PyVal.pyStr "utf-8",
    PyVal.pyInt 5, PyVal.pyBool true, PyVal.pyBool false⟩

/-- A configuration whose single seed URL has a foreign hostname (and
plain `http://`), with all other fields valid. -/
def cfg_foreign_seed : ConfigDTO :=
  ⟨PyVal.pyList [PyVal.pyStr "http://other-site.org/x"], PyVal.pyInt 5,
    PyVal.pyDict [], PyVal.pyStr "utf-8", PyVal.pyInt 5, PyVal.pyBool true,
    PyVal.pyBool false⟩

/-- A fully valid configuration except that `total_articles` is 150. -/
def cfg_total_150 : ConfigDTO :=
  ⟨PyVal.pyList [PyVal.pyStr "https://baikal24.ru/?page=1"], PyVal.pyInt 150,
    PyVal.pyDict [], PyVal.pyStr "utf-8", PyVal.pyInt 5, PyVal.pyBool true,
    PyVal.pyBool false⟩

/-- A configuration whose `total_articles` is the boolean `True`, with
valid seed URLs. -/
def cfg_total_bool : ConfigDTO :=
  ⟨PyVal.pyList [PyVal.pyStr "https://baikal24.ru/?page=1"], PyVal.pyBool true,
    PyVal.pyDict [], PyVal.pyStr "utf-8", PyVal.pyInt 5, PyVal.pyBool true,
    PyVal.pyBool false⟩

/-- A configuration whose `timeout` is a boolean, all other fields
valid. -/
def cfg_timeout_bool (b : Bool) : ConfigDTO :=
  ⟨PyVal.pyList [PyVal.pyStr "https://baikal24.ru/?page=1"], PyVal.pyInt 5,
    PyVal.pyDict [(PyVal.pyStr "user-agent", PyVal.pyStr "Mozilla/5.0")],
    PyVal.pyStr "utf-8", PyVal.pyBool b, PyVal.pyBool true, PyVal.pyBool false⟩

/-- First and second seed listing URLs used in the crawl scenarios. -/
def seed_page_1 : String := "https://baikal24.ru/?page=1"

/-- Second seed listing URL. -/
def seed_page_2 : String := "https://baikal24.ru/?page=2"

/-- Network oracle for the exhaustion scenario: every page fetches
successfully and carries no teaser links at all (0 < target links are
available in total). -/
def fetch_no_links : String → FetchResult := fun _ => FetchResult.resp true []

/-- Network oracle for the one-link exhaustion scenario: every page
fetches successfully and carries the single teaser link `/n1`
(1 < target distinct links available in total). -/
def fetch_one_link : String → FetchResult :=
  fun _ => FetchResult.resp true ["/n1"]

/-- The five teaser hrefs of the spec's concrete scenario: links
`[a, b, a, c, d]` in document order. -/
def hrefs_abacd : List String := ["/a", "/b", "/a", "/c", "/d"]

/-- Network oracle for the concrete scenario: the single seed's page
yields the links `[a, b, a, c, d]`. -/
def fetch_abacd : String → FetchResult :=
  fun _ => FetchResult.resp true hrefs_abacd

/-- Network oracle where seed 1 raises a transport-level exception and
seed 2 succeeds with three fresh links. -/
def fetch_seed1_exn : String → FetchResult := fun u =>
  if u = seed_page_1 then FetchResult.exn
  else FetchResult.resp true ["/a", "/b", "/c"]

/-- Network oracle where seed 1 responds with a non-2xx status
(`response.ok` false) and seed 2 succeeds with three fresh links. -/
def fetch_seed1_bad_status : String → FetchResult := fun u =>
  if u = seed_page_1 then FetchResult.resp false []
  else FetchResult.resp true ["/a", "/b", "/c"]

/-! ## Helper lemmas -/

/-- Appending to a non-empty string yields a non-empty string; in
particular every URL built as `url_pattern + href` is truthy in Python,
whatever the href. -/
theorem string_append_ne_empty (p h : String) (hp : p ≠ "") : p ++ h ≠ "" := by
  intro hc
  apply hp
  have hd := congrArg String.data hc
  rw [String.data_append] at hd
  have hnil : (("" : String)).data = [] := rfl
  rw [hnil] at hd
  have hp2 : p.data = [] := (List.append_eq_nil.mp hd).1
  cases p with
  | mk d =>
      cases hp2
      rfl

/-- The `for link in links` loop of `_extract_url` never produces the
empty string on a non-empty link list (the pattern being non-empty):
whether or not the loop breaks, the variable `url` last held
`pattern + href` for some href. -/
theorem extract_loop_ne_empty (pattern : String) (hp : pattern ≠ "") :
    ∀ (links urls : List String) (acc : String), links ≠ [] →
      extract_loop pattern urls links acc ≠ "" := by
  intro links
  induction links with
  | nil => intro urls acc h; exact absurd rfl h
  | cons l rest ih =>
      intro urls acc _
      by_cases hc : pattern ++ l ≠ "" ∧ pattern ++ l ∉ urls
      · simp only [extract_loop, if_pos hc]
        exact hc.1
      · simp only [extract_loop, if_neg hc]
        cases rest with
        | nil =>
            simp only [extract_loop]
            exact string_append_ne_empty pattern l hp
        | cons r rs => exact ih urls (pattern ++ l) (by simp)

/-- `_extract_url` never returns the empty-string sentinel on a page
with at least one teaser link. -/
theorem extract_url_ne_empty (pattern : String) (hp : pattern ≠ "")
    (urls links : List String) (h : links ≠ []) :
    extract_url pattern urls links ≠ "" :=
  extract_loop_ne_empty pattern hp links urls "" h

/-- `_extract_url` returns the empty-string sentinel on a page with no
teaser links. -/
theorem extract_url_nil (pattern : String) (urls : List String) :
    extract_url pattern urls [] = "" := rfl

/-- On a page with at least one teaser link, the inner loop of
`find_articles` consumes all its fuel: `_extract_url` never returns the
sentinel, so the `while new_url` loop never exits. -/
theorem inner_loop_none (pattern : String) (hp : pattern ≠ "")
    (links : List String) (h : links ≠ []) :
    ∀ (fuel : Nat) (urls : List String),
      inner_loop pattern links fuel urls = none := by
  intro fuel
  induction fuel with
  | zero => intro urls; rfl
  | succ f ih =>
      intro urls
      simp only [inner_loop, if_neg (extract_url_ne_empty pattern hp urls links h)]
      exact ih _

/-- When every link of a non-empty page is already discovered, the loop
of `_extract_url` falls through and leaves `url` holding the URL built
from the page's last link. -/
theorem extract_loop_all_mem (pattern : String) :
    ∀ (links : List String) (h : links ≠ []) (urls : List String) (acc : String),
      (∀ l ∈ links, pattern ++ l ∈ urls) →
      extract_loop pattern urls links acc = pattern ++ links.getLast h := by
  intro links
  induction links with
  | nil => intro h; exact absurd rfl h
  | cons l rest ih =>
      intro h urls acc hall
      have hmem : pattern ++ l ∈ urls := hall l (by simp)
      have hc : ¬(pattern ++ l ≠ "" ∧ pattern ++ l ∉ urls) := by
        intro hcontra
        exact hcontra.2 hmem
      simp only [extract_loop, if_neg hc]
      cases rest with
      | nil => rfl
      | cons r rs =>
          have hrest : (r :: rs : List String) ≠ [] := by simp
          have := ih hrest urls (pattern ++ l)
            (fun x hx => hall x (List.mem_cons_of_mem l hx))
          rw [this, List.getLast_cons hrest]

/-- One entry passes the seed-URL regex test iff it is a string starting
with `http://` or `https://`. -/
theorem seed_entry_ok_iff (w : PyVal) :
    seed_entry_ok w = true ↔ ∃ s, w = PyVal.pyStr s ∧
      (str_starts_with s "http://" = true ∨ str_starts_with s "https://" = true) := by
  cases w <;> simp [seed_entry_ok, re_match_seed]

/-- The whole `seed_urls` check passes iff the field is a list of
strings each starting with `http://` or `https://` — in particular the
empty list passes, and the target hostname is never inspected. -/
theorem seed_urls_ok_iff (v : PyVal) :
    seed_urls_ok v = true ↔ ∃ xs, v = PyVal.pyList xs ∧
      ∀ w ∈ xs, ∃ s, w = PyVal.pyStr s ∧
        (str_starts_with s "http://" = true ∨ str_starts_with s "https://" = true) := by
  cases v <;> simp [seed_urls_ok, List.all_eq_true, seed_entry_ok_iff]

/-- On any single entry, the collapsed Boolean test agrees with the
match predicate of the explicit model. -/
theorem matching_str_iff (w : PyVal) :
    MatchingStr w ↔ seed_entry_ok w = true := by
  cases w <;> simp [MatchingStr, seed_entry_ok]

/-- The left-to-right scan of `all(re.match(...) ...)` completes with
`True` iff every entry is a matching string. -/
theorem all_entries_ok_true_iff (xs : List PyVal) :
    all_entries xs = Except.ok true ↔ ∀ w ∈ xs, MatchingStr w := by
  induction xs with
  | nil => simp [all_entries]
  | cons v rest ih =>
      cases v with
      | pyStr s =>
          by_cases hm : re_match_seed s = true
          · simp [all_entries, re_match_entry, hm, ih, MatchingStr]
          · simp only [Bool.not_eq_true] at hm
            simp [all_entries, re_match_entry, hm, MatchingStr]
      | pyInt n => simp [all_entries, re_match_entry, MatchingStr]
      | pyBool b => simp [all_entries, re_match_entry, MatchingStr]
      | pyList ys => simp [all_entries, re_match_entry, MatchingStr]
      | pyDict kvs => simp [all_entries, re_match_entry, MatchingStr]
      | pyNone => simp [all_entries, re_match_entry, MatchingStr]

/-- The scan raises `TypeError` iff some non-string entry is preceded
only by matching strings (so the scan actually reaches it). -/
theorem all_entries_error_iff (xs : List PyVal) :
    all_entries xs = Except.error () ↔
      ∃ pre w rest, xs = pre ++ w :: rest ∧ (∀ u ∈ pre, MatchingStr u) ∧
        NonStr w := by
  induction xs with
  | nil =>
      simp only [all_entries]
      constructor
      · intro h; exact absurd h (by simp)
      · rintro ⟨pre, w, rest, heq, -, -⟩
        exact absurd heq.symm (List.append_ne_nil_of_right_ne_nil pre (by simp))
  | cons v rest ih =>
      cases v with
      | pyStr s =>
          by_cases hm : re_match_seed s = true
          · have hstep : all_entries (PyVal.pyStr s :: rest) = all_entries rest := by
              simp [all_entries, re_match_entry, hm]
            rw [hstep, ih]
            constructor
            · rintro ⟨pre, w, rest2, heq, hpre, hw⟩
              refine ⟨PyVal.pyStr s :: pre, w, rest2, by simp [heq], ?_, hw⟩
              intro u hu
              rcases List.mem_cons.mp hu with h1 | h2
              · exact h1 ▸ ⟨s, rfl, hm⟩
              · exact hpre u h2
            · rintro ⟨pre, w, rest2, heq, hpre, hw⟩
              cases pre with
              | nil =>
                  simp only [List.nil_append, List.cons.injEq] at heq
                  exact absurd heq.1.symm (hw s)
              | cons p pre2 =>
                  simp only [List.cons_append, List.cons.injEq] at heq
                  exact ⟨pre2, w, rest2, heq.2,
                    fun u hu => hpre u (List.mem_cons_of_mem p hu), hw⟩
          · simp only [Bool.not_eq_true] at hm
            have hstep : all_entries (PyVal.pyStr s :: rest) = Except.ok false := by
              simp [all_entries, re_match_entry, hm]
            rw [hstep]
            constructor
            · intro h; exact absurd h (by simp)
            · rintro ⟨pre, w, rest2, heq, hpre, hw⟩
              cases pre with
              | nil =>
                  simp only [List.nil_append, List.cons.injEq] at heq
                  exact absurd heq.1.symm (hw s)
              | cons p pre2 =>
                  simp only [List.cons_append, List.cons.injEq] at heq
                  rcases hpre p (by simp) with ⟨s2, hp, hs2⟩
                  rw [← heq.1] at hp
                  cases hp
                  rw [hs2] at hm
                  cases hm
      | pyInt n =>
          rw [show all_entries (PyVal.pyInt n :: rest) = Except.error () from rfl]
          simp only [true_iff]
          exact ⟨[], PyVal.pyInt n, rest, rfl, by simp, fun s h => by cases h⟩
      | pyBool b =>
          rw [show all_entries (PyVal.pyBool b :: rest) = Except.error () from rfl]
          simp only [true_iff]
          exact ⟨[], PyVal.pyBool b, rest, rfl, by simp, fun s h => by cases h⟩
      | pyList ys =>
          rw [show all_entries (PyVal.pyList ys :: rest) = Except.error () from rfl]
          simp only [true_iff]
          exact ⟨[], PyVal.pyList ys, rest, rfl, by simp, fun s h => by cases h⟩
      | pyDict kvs =>
          rw [show all_entries (PyVal.pyDict kvs :: rest) = Except.error () from rfl]
          simp only [true_iff]
          exact ⟨[], PyVal.pyDict kvs, rest, rfl, by simp, fun s h => by cases h⟩
      | pyNone =>
          rw [show all_entries (PyVal.pyNone :: rest) = Except.error () from rfl]
          simp only [true_iff]
          exact ⟨[], PyVal.pyNone, rest, rfl, by simp, fun s h => by cases h⟩

/-- A `TypeError` escaping the seed check aborts validation. -/
theorem validate_exc_of_check_error (c : ConfigDTO)
    (h : seed_urls_check c.seed_urls = Except.error ()) :
    validate_config_content_exc c = Except.error none := by
  simp [validate_config_content_exc, h]

/-- A seed check evaluating to `False` raises `IncorrectSeedURLError`. -/
theorem validate_exc_of_check_false (c : ConfigDTO)
    (h : seed_urls_check c.seed_urls = Except.ok false) :
    validate_config_content_exc c =
      Except.error (some ConfigError.incorrectSeedURL) := by
  simp [validate_config_content_exc, h]

/-- After the seed check passes, the later checks can produce neither a
`TypeError` nor an `IncorrectSeedURLError`. -/
theorem validate_exc_of_check_true (c : ConfigDTO)
    (h : seed_urls_check c.seed_urls = Except.ok true) :
    validate_config_content_exc c ≠ Except.error none ∧
    validate_config_content_exc c ≠
      Except.error (some ConfigError.incorrectSeedURL) := by
  simp only [validate_config_content_exc, h, Bool.not_true, Bool.false_eq_true,
    if_false]
  constructor <;> · split_ifs <;> simp

/-- Whenever no `TypeError` escapes the seed check, the model with the
explicit `TypeError` path coincides with the collapsed
`validate_config_content` (errors mapped through `some`), so the
collapsed model is faithful on every configuration used by the other
properties. -/
theorem validate_exc_agrees (c : ConfigDTO)
    (h : validate_config_content_exc c ≠ Except.error none) :
    validate_config_content_exc c =
      Except.mapError some (validate_config_content c) := by
  rcases hcheck : seed_urls_check c.seed_urls with e | b
  · cases e
    exact absurd (validate_exc_of_check_error c hcheck) h
  · cases b
    · have hok : seed_urls_ok c.seed_urls = false := by
        cases hv : c.seed_urls with
        | pyList xs =>
            rw [hv] at hcheck
            have hcheck2 : all_entries xs = Except.ok false := hcheck
            have hnall : ¬ xs.all seed_entry_ok = true := by
              intro hall
              have hmatch : ∀ w ∈ xs, MatchingStr w := fun w hw =>
                (matching_str_iff w).mpr (List.all_eq_true.mp hall w hw)
              rw [(all_entries_ok_true_iff xs).mpr hmatch] at hcheck2
              cases hcheck2
            simp only [seed_urls_ok]
            cases hx : xs.all seed_entry_ok
            · rfl
            · exact absurd hx hnall
        | pyInt n => rfl
        | pyBool b2 => rfl
        | pyStr s => rfl
        | pyDict kvs => rfl
        | pyNone => rfl
      rw [validate_exc_of_check_false c hcheck]
      simp [validate_config_content, hok, Except.mapError]
    · have hok : seed_urls_ok c.seed_urls = true := by
        cases hv : c.seed_urls with
        | pyList xs =>
            rw [hv] at hcheck
            have hcheck2 : all_entries xs = Except.ok true := hcheck
            have hmatch := (all_entries_ok_true_iff xs).mp hcheck2
            simp only [seed_urls_ok, List.all_eq_true]
            intro w hw
            exact (matching_str_iff w).mp (hmatch w hw)
        | pyInt n => rw [hv] at hcheck; simp [seed_urls_check] at hcheck
        | pyBool b2 => rw [hv] at hcheck; simp [seed_urls_check] at hcheck
        | pyStr s => rw [hv] at hcheck; simp [seed_urls_check] at hcheck
        | pyDict kvs => rw [hv] at hcheck; simp [seed_urls_check] at hcheck
        | pyNone => rw [hv] at hcheck; simp [seed_urls_check] at hcheck
      simp only [validate_config_content_exc, validate_config_content, hcheck,
        hok, Bool.not_true, Bool.false_eq_true, if_false]
      split_ifs <;> simp [Except.mapError]

/-! ## Claim theorems -/

/-- C9: `_extract_url` returns the empty-string sentinel iff the page
has no teaser links at all; on a non-empty page whose links are all
already discovered it returns the last link's URL, which is already in
the discovered list, and the inner loop of `find_articles` therefore
appends that already-discovered URL instead of stopping. -/
theorem c9_extract_url_sentinel (urls links : List String) :
    (extract_url url_pattern urls links = "" ↔ links = []) ∧
    (∀ h : links ≠ [], (∀ l ∈ links, url_pattern ++ l ∈ urls) →
      extract_url url_pattern urls links = url_pattern ++ links.getLast h ∧
      url_pattern ++ links.getLast h ∈ urls ∧
      ∀ fuel, inner_loop url_pattern links (fuel + 1) urls =
        inner_loop url_pattern links fuel
          (urls ++ [url_pattern ++ links.getLast h])) := by
  have hp : url_pattern ≠ "" := by decide
  constructor
  · constructor
    · intro he
      by_contra hne
      exact extract_url_ne_empty url_pattern hp urls links hne he
    · intro he
      rw [he]
      rfl
  · intro h hall
    have hlast : extract_url url_pattern urls links =
        url_pattern ++ links.getLast h :=
      extract_loop_all_mem url_pattern links h urls "" hall
    refine ⟨hlast, hall _ (List.getLast_mem h), ?_⟩
    intro fuel
    have hne : extract_url url_pattern urls links ≠ "" :=
      extract_url_ne_empty url_pattern hp urls links h
    simp only [inner_loop, if_neg hne]
    rw [hlast]

/-- C9 witness: with the single already-discovered link `/a`,
`_extract_url` returns that same URL again and the inner loop appends
the duplicate instead of exiting. -/
theorem c9_extract_url_sentinel_witness :
    extract_url url_pattern [url_pattern ++ "/a"] ["/a"] = url_pattern ++ "/a" ∧
    url_pattern ++ "/a" ∈ [url_pattern ++ "/a"] ∧
    inner_loop url_pattern ["/a"] 1 [url_pattern ++ "/a"] =
      inner_loop url_pattern ["/a"] 0 [url_pattern ++ "/a", url_pattern ++ "/a"] := by
  have h := (c9_extract_url_sentinel [url_pattern ++ "/a"] ["/a"]).2
    (by decide) (by decide)
  exact ⟨h.1, h.2.1, h.2.2 0⟩

/-- C3 (failing input): feed the crawler a page holding the single
teaser link `/a` with nothing discovered yet.  Two iterations of the
inner-loop body of `find_articles` append the same URL twice — the
second `_extract_url` call returns the already-discovered URL, not the
sentinel — so the discovered list contains a duplicate, refuting the
uniqueness invariant claimed for every append. -/
theorem c3_duplicate_append :
    extract_url url_pattern [url_pattern ++ "/a"] ["/a"] = url_pattern ++ "/a" ∧
    inner_iterate url_pattern ["/a"] 2 [] = [url_pattern ++ "/a", url_pattern ++ "/a"] ∧
    ¬ (inner_iterate url_pattern ["/a"] 2 []).Nodup := by decide

/-- C4 counterexample: a candidate link whose URL is exactly the
configured seed listing URL `https://baikal24.ru/?page=2` is returned by
`_extract_url` and appended to the discovered list by the inner-loop
body of `find_articles` — no seed-URL filtering takes place. -/
theorem c4_seed_url_appended :
    seed_page_2 ∈ [seed_page_1, seed_page_2] ∧
    extract_url url_pattern [] ["/?page=2"] = seed_page_2 ∧
    inner_iterate url_pattern ["/?page=2"] 1 [] = [seed_page_2] := by decide

/-- C4 (amended): `_extract_url` applies no seed-URL filter at all — it
does not even receive the seed list; any candidate link not already in
the discovered list is accepted, including one equal to a configured
seed URL. -/
theorem c4_no_seed_filtering (urls : List String) (href : String)
    (h : url_pattern ++ href ∉ urls) :
    extract_url url_pattern urls [href] = url_pattern ++ href := by
  have hp : url_pattern ≠ "" := by decide
  have hc : url_pattern ++ href ≠ "" ∧ url_pattern ++ href ∉ urls :=
    ⟨string_append_ne_empty url_pattern href hp, h⟩
  simp only [extract_url, extract_loop, if_pos hc]

/-- C4 amended-claim witness: the fresh candidate `/?page=2`, whose full
URL is the seed listing URL `seed_page_2`, is accepted. -/
theorem c4_no_seed_filtering_witness :
    extract_url url_pattern [] ["/?page=2"] = url_pattern ++ "/?page=2" :=
  c4_no_seed_filtering [] "/?page=2" (by decide)

/-- C1 (failing input): `find_articles` never terminates when a full
round over the seeds yields fewer new URLs than the target.  With a
single seed whose page carries no teaser links (0 < 3 available), and
with a single seed whose page carries the one link `/n1` (1 < 3
available), the crawl exhausts every amount of fuel: no
`DiscoveryExhaustedError` (no such signal exists in the source) and no
return ever happens. -/
theorem c1_find_articles_diverges :
    (∀ innerFuel fuel, find_articles url_pattern fetch_no_links [seed_page_1] 3
        innerFuel fuel [] = CrawlResult.fuelOut) ∧
    (∀ innerFuel fuel, find_articles url_pattern fetch_one_link [seed_page_1] 3
        innerFuel fuel [] = CrawlResult.fuelOut) := by
  constructor
  · intro innerFuel fuel
    induction fuel with
    | zero => rfl
    | succ f ih =>
        cases innerFuel with
        | zero => rfl
        | succ g => exact ih
  · intro innerFuel fuel
    cases fuel with
    | zero => rfl
    | succ f =>
        have hnone := inner_loop_none url_pattern (by decide) ["/n1"] (by decide)
          innerFuel []
        have hround : crawl_round url_pattern fetch_one_link innerFuel
            [seed_page_1] [] = Sum.inl CrawlResult.fuelOut := by
          simp [crawl_round, fetch_one_link, hnone]
        simp [find_articles, hround]

/-- C2 (failing input): the spec's concrete scenario — target 3, one
seed whose page yields links `[a, b, a, c, d]`.  The crawl never
returns (first conjunct), the fourth iteration of the inner-loop body
has already appended `d`, making the discovered list
`[a, b, c, d]` of size 4 > 3 (second conjunct), and at the very moment
the target is reached `_extract_url` still extracts `d` rather than
stopping (third conjunct) — refuting both the size bound and the
stop-at-target behaviour. -/
theorem c2_target_overshoot :
    (∀ innerFuel fuel, find_articles url_pattern fetch_abacd [seed_page_1] 3
        innerFuel fuel [] = CrawlResult.fuelOut) ∧
    inner_iterate url_pattern hrefs_abacd 4 [] =
      [url_pattern ++ "/a", url_pattern ++ "/b", url_pattern ++ "/c",
        url_pattern ++ "/d"] ∧
    extract_url url_pattern
      [url_pattern ++ "/a", url_pattern ++ "/b", url_pattern ++ "/c"]
      hrefs_abacd = url_pattern ++ "/d" := by
  refine ⟨?_, by decide, by decide⟩
  intro innerFuel fuel
  cases fuel with
  | zero => rfl
  | succ f =>
      have hnone := inner_loop_none url_pattern (by decide) hrefs_abacd (by decide)
        innerFuel []
      have hround : crawl_round url_pattern fetch_abacd innerFuel
          [seed_page_1] [] = Sum.inl CrawlResult.fuelOut := by
        simp [crawl_round, fetch_abacd, hnone]
      simp [find_articles, hround]

/-- C8 (failing input): seed 1 always fails, seed 2 succeeds with three
fresh links, target 3.  If seed 1 fails at transport level, the
exception from `make_request` propagates and aborts the whole crawl
(first conjunct: the result is `raised` for every positive fuel).  If
seed 1 instead merely returns a non-ok status, the `continue` does skip
it, but the crawl still never reaches the target: the inner loop on
seed 2's page never terminates (second conjunct). -/
theorem c8_fetch_failure_not_recoverable :
    (∀ innerFuel fuel, find_articles url_pattern fetch_seed1_exn
        [seed_page_1, seed_page_2] 3 innerFuel (fuel + 1) [] =
        CrawlResult.raised) ∧
    (∀ innerFuel fuel, find_articles url_pattern fetch_seed1_bad_status
        [seed_page_1, seed_page_2] 3 innerFuel fuel [] = CrawlResult.fuelOut) := by
  constructor
  · intro innerFuel fuel
    rfl
  · intro innerFuel fuel
    cases fuel with
    | zero => rfl
    | succ f =>
        have hnone := inner_loop_none url_pattern (by decide)
          ["/a", "/b", "/c"] (by decide) innerFuel []
        have hround : crawl_round url_pattern fetch_seed1_bad_status innerFuel
            [seed_page_1, seed_page_2] [] = Sum.inl CrawlResult.fuelOut := by
          simp [crawl_round, fetch_seed1_bad_status, seed_page_1, seed_page_2, hnone]
        simp [find_articles, hround]

/-- C5 counterexample: with every other field valid, validation raises
nothing for an empty `seed_urls` list (the claim requires
`IncorrectSeedURLError`) and nothing for a seed URL on a foreign host
with plain `http://` (the claim requires the target site's `https://`
pattern) — in both the collapsed model and the model with the
`TypeError` path kept explicit. -/
theorem c5_empty_and_foreign_seed_accepted :
    validate_config_content cfg_empty_seeds = Except.ok () ∧
    validate_config_content cfg_foreign_seed = Except.ok () ∧
    validate_config_content_exc cfg_empty_seeds = Except.ok () ∧
    validate_config_content_exc cfg_foreign_seed = Except.ok () := by decide

/-- C5 (amended): over the model that keeps the `re.match` `TypeError`
explicit, validation on the seed field has exactly three outcomes.  An
uncaught `TypeError` escapes — it is not an `IncorrectSeedURLError` —
precisely when `seed_urls` is a list in which some non-string entry is
preceded only by matching strings (first conjunct).
`IncorrectSeedURLError` is raised precisely when the entries are not all
matching strings AND no such reachable non-string entry exists, i.e. the
left-to-right scan hits a non-matching string first, or the field is not
a list at all (second conjunct).  In particular the empty list passes,
a plain `http://` prefix suffices, and the hostname is never checked. -/
theorem c5_seed_error_characterization (c : ConfigDTO) :
    (validate_config_content_exc c = Except.error none ↔
      ∃ xs pre w rest, c.seed_urls = PyVal.pyList xs ∧ xs = pre ++ w :: rest ∧
        (∀ u ∈ pre, MatchingStr u) ∧ NonStr w) ∧
    (validate_config_content_exc c =
        Except.error (some ConfigError.incorrectSeedURL) ↔
      ((¬ ∃ xs, c.seed_urls = PyVal.pyList xs ∧ ∀ w ∈ xs, MatchingStr w) ∧
        ¬ ∃ xs pre w rest, c.seed_urls = PyVal.pyList xs ∧
          xs = pre ++ w :: rest ∧ (∀ u ∈ pre, MatchingStr u) ∧ NonStr w)) := by
  cases hv : c.seed_urls with
  | pyList xs =>
      have hcheck : seed_urls_check c.seed_urls = all_entries xs := by
        rw [hv]
        rfl
      rcases htri : all_entries xs with e | b
      · cases e
        have hval := validate_exc_of_check_error c (hcheck.trans htri)
        rcases (all_entries_error_iff xs).mp htri with ⟨pre, w, rest, heq, hpre, hw⟩
        constructor
        · exact iff_of_true hval ⟨xs, pre, w, rest, rfl, heq, hpre, hw⟩
        · refine iff_of_false (by rw [hval]; simp) ?_
          rintro ⟨-, hno⟩
          exact hno ⟨xs, pre, w, rest, rfl, heq, hpre, hw⟩
      · cases b
        · have hval := validate_exc_of_check_false c (hcheck.trans htri)
          have hnotrue : ¬ ∀ w ∈ xs, MatchingStr w := by
            intro hall
            rw [(all_entries_ok_true_iff xs).mpr hall] at htri
            cases htri
          have hnoerr : ¬ ∃ pre w rest, xs = pre ++ w :: rest ∧
              (∀ u ∈ pre, MatchingStr u) ∧ NonStr w := by
            intro hex
            rw [(all_entries_error_iff xs).mpr hex] at htri
            cases htri
          constructor
          · refine iff_of_false (by rw [hval]; simp) ?_
            rintro ⟨xs2, pre, w, rest, hxs2, heq, hpre, hw⟩
            injection hxs2 with h2
            subst h2
            exact hnoerr ⟨pre, w, rest, heq, hpre, hw⟩
          · refine iff_of_true hval ⟨?_, ?_⟩
            · rintro ⟨xs2, hxs2, hall⟩
              injection hxs2 with h2
              subst h2
              exact hnotrue hall
            · rintro ⟨xs2, pre, w, rest, hxs2, heq, hpre, hw⟩
              injection hxs2 with h2
              subst h2
              exact hnoerr ⟨pre, w, rest, heq, hpre, hw⟩
        · have hval := validate_exc_of_check_true c (hcheck.trans htri)
          have hall := (all_entries_ok_true_iff xs).mp htri
          constructor
          · refine iff_of_false hval.1 ?_
            rintro ⟨xs2, pre, w, rest, hxs2, heq, hpre, hw⟩
            injection hxs2 with h2
            subst h2
            have := (all_entries_error_iff xs).mpr ⟨pre, w, rest, heq, hpre, hw⟩
            rw [htri] at this
            cases this
          · refine iff_of_false hval.2 ?_
            rintro ⟨hno, -⟩
            exact hno ⟨xs, rfl, hall⟩
  | pyInt n =>
      have hval := validate_exc_of_check_false c (by rw [hv]; rfl)
      rw [hval]
      simp
  | pyBool b =>
      have hval := validate_exc_of_check_false c (by rw [hv]; rfl)
      rw [hval]
      simp
  | pyStr s =>
      have hval := validate_exc_of_check_false c (by rw [hv]; rfl)
      rw [hval]
      simp
  | pyDict kvs =>
      have hval := validate_exc_of_check_false c (by rw [hv]; rfl)
      rw [hval]
      simp
  | pyNone =>
      have hval := validate_exc_of_check_false c (by rw [hv]; rfl)
      rw [hval]
      simp

/-- C6 counterexample: `total_articles = 150` with every other field
valid is rejected with `NumberOfArticlesOutOfRangeError`, although the
claim requires 150 to be accepted. -/
theorem c6_150_rejected :
    validate_config_content cfg_total_150 =
      Except.error ConfigError.numberOfArticlesOutOfRange := by decide

/-- C6 (amended): for an integer `total_articles` (with the seed check
passing), the range check rejects with `NumberOfArticlesOutOfRangeError`
exactly the values outside the open interval (1, 150): both bounds are
strict, so 2 and 149 are accepted while 1, 150 and 151 are rejected. -/
theorem c6_range_error_characterization (c : ConfigDTO) (n : Int)
    (htotal : c.total_articles = PyVal.pyInt n)
    (hseed : seed_urls_ok c.seed_urls = true) :
    validate_config_content c =
        Except.error ConfigError.numberOfArticlesOutOfRange ↔
      (n = 1 ∨ 150 ≤ n) := by
  simp only [validate_config_content, hseed, htotal, total_articles_type_ok,
    total_articles_range_ok, isInstInt, isInstBool, pyIntVal, Bool.not_true,
    Bool.and_true, Bool.true_and, Bool.not_false]
  split_ifs with h1 h2 <;> simp_all <;> omega

/-- C6 witness: the amended characterization applied at the concrete
configuration with `total_articles = 150`. -/
theorem c6_range_witness :
    validate_config_content cfg_total_150 =
      Except.error ConfigError.numberOfArticlesOutOfRange :=
  (c6_range_error_characterization cfg_total_150 150 rfl (by decide)).mpr
    (Or.inr (by norm_num))

/-- The `total_articles` type-and-sign check fails exactly on
non-integers, booleans, and non-positive integers. -/
theorem total_articles_type_ok_false_iff (v : PyVal) :
    total_articles_type_ok v = false ↔
      (isInstInt v = false ∨ isInstBool v = true ∨ pyIntVal v ≤ 0) := by
  cases v <;>
    simp [total_articles_type_ok, isInstInt, isInstBool, pyIntVal]

/-- C7: with the seed check passing, validation raises
`IncorrectNumberOfArticlesError` — a kind distinct from
`NumberOfArticlesOutOfRangeError` — exactly when `total_articles` is
not an integer, is a boolean (rejected although Python booleans are
structurally integers), or is not strictly positive. -/
theorem c7_number_error_characterization (c : ConfigDTO)
    (hseed : seed_urls_ok c.seed_urls = true) :
    validate_config_content c =
        Except.error ConfigError.incorrectNumberOfArticles ↔
      (isInstInt c.total_articles = false ∨ isInstBool c.total_articles = true ∨
        pyIntVal c.total_articles ≤ 0) := by
  rw [← total_articles_type_ok_false_iff]
  by_cases h : total_articles_type_ok c.total_articles = true
  · simp only [validate_config_content, hseed, h, Bool.not_true, Bool.false_eq_true,
      if_false]
    simp [h]
    split_ifs <;> simp
  · have h2 : total_articles_type_ok c.total_articles = false := by
      cases hx : total_articles_type_ok c.total_articles
      · rfl
      · exact absurd hx h
    simp [validate_config_content, hseed, h2]

/-- C7 witness: the characterization applied at the concrete
configuration whose `total_articles` is the boolean `True`. -/
theorem c7_number_witness :
    validate_config_content cfg_total_bool =
      Except.error ConfigError.incorrectNumberOfArticles :=
  (c7_number_error_characterization cfg_total_bool (by decide)).mpr
    (Or.inr (Or.inl (by decide)))

/-- C10: the timeout check tests only `isinstance(..., int)` — which
Python booleans satisfy — and membership in [0, 60], with no boolean
exclusion like the one applied to `total_articles`; a configuration
whose `timeout` is `True` (or `False`), with all other fields valid,
passes validation with no error. -/
theorem c10_bool_timeout_accepted :
    validate_config_content (cfg_timeout_bool true) = Except.ok () ∧
    validate_config_content (cfg_timeout_bool false) = Except.ok () := by decide
